import Mathlib

/-!
Shallow embedding of the countermeasure subsystem of the repository
(src/countermeasure.py): the process-wide blocked-address registry
`BLOCKED_IP_CACHE`, its JSON persistence (`save_blocked_cache` and the
startup load), and the three blocking backends `WindowsFirewall`,
`LinuxIPTables` and `SDNController` with their `block_ip` / `unblock_ip`
methods.

External effects are made explicit:
  - the result of each `os.system` call is an input (`SysOutcome`): the
    call either returns an exit code or raises an exception;
  - the result of the durable-file write in `save_blocked_cache` is an
    input (`WriteOutcome`);
  - the result of the `requests.post` call of the SDN backend is an
    input (`PostOutcome`);
  - issued platform actions, scheduled timers and printed error lines are
    recorded in the state, so that theorems can speak about them.

Python's `set` is modelled as a duplicate-free list of JSON values
(`BLOCKED_IP_CACHE.update(data)` at startup can insert arbitrary JSON
values, not only strings). `set.add` is a guarded append, `set.remove`
raises `KeyError` when the element is absent, exactly as in Python.
-/

namespace Countermeasure

/-- JSON values, as produced by Python's `json.load` on the persisted
file `blocked.json`. -/
inductive Json where
  | null : Json
  | bool (b : Bool) : Json
  | num (n : Int) : Json
  | str (s : String) : Json
  | arr (elems : List Json) : Json
  | obj (fields : List (String × Json)) : Json
deriving Repr

mutual

def decEqJson (a b : Json) : Decidable (a = b) := by
  cases a <;> cases b <;>
    try { exact isFalse (fun hc => Json.noConfusion hc) }
  case null.null => exact isTrue rfl
  case bool.bool x y =>
    exact decidable_of_iff (x = y)
      ⟨fun hv => by rw [hv], fun hc => by injection hc⟩
  case num.num x y =>
    exact decidable_of_iff (x = y)
      ⟨fun hv => by rw [hv], fun hc => by injection hc⟩
  case str.str x y =>
    exact decidable_of_iff (x = y)
      ⟨fun hv => by rw [hv], fun hc => by injection hc⟩
  case arr.arr xs ys =>
    exact @decidable_of_iff (Json.arr xs = Json.arr ys) (xs = ys)
      ⟨fun hv => by rw [hv], fun hc => by injection hc⟩
      (decEqJsonList xs ys)
  case obj.obj xs ys =>
    exact @decidable_of_iff (Json.obj xs = Json.obj ys) (xs = ys)
      ⟨fun hv => by rw [hv], fun hc => by injection hc⟩
      (decEqJsonFields xs ys)

def decEqJsonList (xs ys : List Json) : Decidable (xs = ys) :=
  match xs, ys with
  | [], [] => isTrue rfl
  | [], _ :: _ => isFalse (fun hc => List.noConfusion hc)
  | _ :: _, [] => isFalse (fun hc => List.noConfusion hc)
  | x :: xs, y :: ys =>
    @decidable_of_iff (x :: xs = y :: ys) (x = y ∧ xs = ys)
      ⟨fun hv => by rw [hv.1, hv.2],
       fun hc => by injection hc with hh ht; exact ⟨hh, ht⟩⟩
      (@instDecidableAnd _ _ (decEqJson x y) (decEqJsonList xs ys))

def decEqJsonFields (xs ys : List (String × Json)) : Decidable (xs = ys) :=
  match xs, ys with
  | [], [] => isTrue rfl
  | [], _ :: _ => isFalse (fun hc => List.noConfusion hc)
  | _ :: _, [] => isFalse (fun hc => List.noConfusion hc)
  | (k1, v1) :: xs, (k2, v2) :: ys =>
    @decidable_of_iff ((k1, v1) :: xs = (k2, v2) :: ys) (k1 = k2 ∧ v1 = v2 ∧ xs = ys)
      ⟨fun hv => by rw [hv.1, hv.2.1, hv.2.2],
       fun hc => by
         injection hc with hh ht
         injection hh with hk hv
         exact ⟨hk, hv, ht⟩⟩
      (@instDecidableAnd _ _ (decEq k1 k2)
        (@instDecidableAnd _ _ (decEqJson v1 v2) (decEqJsonFields xs ys)))

end

instance : DecidableEq Json := decEqJson

/-- Content of the durable file `blocked.json` as seen by the startup
load: the file may be missing, unreadable/malformed (open or `json.load`
raises), or hold a parsed JSON value. -/
inductive FileState where
  | missing : FileState
  | unreadable : FileState
  | json (j : Json) : FileState
deriving DecidableEq, Repr

/-- Externally observable platform actions: the shell commands issued via
`os.system` and the flow-rule POST of the SDN backend. -/
inductive Action where
  | netshAdd (ip : String) : Action
  | netshDel (ip : String) : Action
  | iptablesAdd (ip : String) : Action
  | iptablesDel (ip : String) : Action
  | sdnFlowAdd (ip : String) : Action
deriving DecidableEq, Repr

/-- Outcome of an `os.system` call: it returns an exit status, or raises. -/
inductive SysOutcome where
  | exit (code : Int) : SysOutcome
  | raise : SysOutcome
deriving DecidableEq, Repr

/-- Outcome of the durable-file write inside `save_blocked_cache`. -/
inductive WriteOutcome where
  | ok : WriteOutcome
  | raise : WriteOutcome
deriving DecidableEq, Repr

/-- Outcome of the `requests.post` call of `SDNController.block_ip`. -/
inductive PostOutcome where
  | ok : PostOutcome
  | raise : PostOutcome
deriving DecidableEq, Repr

/-- Result of a Python call as seen by the caller: a returned value, or an
exception escaping the call. -/
inductive PyOutcome (α : Type) where
  | ok (val : α) : PyOutcome α
  | exn (e : String) : PyOutcome α
deriving DecidableEq, Repr

/-- State of the countermeasure module: the in-memory set
`BLOCKED_IP_CACHE`, the durable file, and logs of issued platform
actions, scheduled `threading.Timer` unblocks `(duration, ip)`, and
printed ERROR lines. -/
structure CmState where
  cache : List Json
  file : FileState
  actions : List Action
  timers : List (Nat × String)
  errLog : List String
deriving DecidableEq, Repr

/-- Python `set.add`: no-op when the element is present. -/
def setAdd (c : List Json) (x : Json) : List Json :=
  if x ∈ c then c else c ++ [x]

/-- Removal of an element from the list-modelled set: on the
duplicate-free lists the program builds, removing every occurrence is
removal of the element. -/
def setErase (c : List Json) (x : Json) : List Json :=
  c.filter (fun y => y ≠ x)

/-- Python `set.remove`: raises `KeyError` when the element is absent. -/
def setRemove (c : List Json) (x : Json) : Except String (List Json) :=
  if x ∈ c then .ok (setErase c x) else .error "KeyError"

/-- Python `set.update(xs)`: insert every element of `xs`. -/
def setUpdate (c : List Json) (xs : List Json) : List Json :=
  xs.foldl setAdd c

/-- Model of `save_blocked_cache()`: `json.dump(list(BLOCKED_IP_CACHE), f)`
with the file opened in mode "w" — a whole-file overwrite with the array
of cache elements; any exception is swallowed (`except Exception: pass`),
leaving the file as it was. -/
def save_blocked_cache (w : WriteOutcome) (s : CmState) : CmState :=
  match w with
  | .ok => { s with file := .json (.arr s.cache) }
  | .raise => s

/-- Model of the module-level startup load: if the file exists, try to
parse it; when the parse succeeds and yields a list, `update` the (empty)
cache with its elements; any exception is swallowed, and non-list content
is ignored. -/
def loadCache (f : FileState) : List Json :=
  match f with
  | .json (.arr xs) => setUpdate [] xs
  | _ => []

/-- State of the module right after import: cache loaded from the file,
no actions, timers or error lines yet. -/
def initialState (f : FileState) : CmState :=
  { cache := loadCache f, file := f, actions := [], timers := [], errLog := [] }

/-- Return value of the Windows
and Linux `block_ip` when the address is already cached (the
`AlreadyBlocked` status of the specification). -/
def alreadyBlockedMsg (duration : Nat) : String :=
  "IP_ALREADY_BLOCKED_FOR_" ++ toString duration ++ "s"

/-- Return value of the Windows and Linux
`block_ip` on success (the `Blocked` status of the specification). -/
def blockedMsg (duration : Nat) : String :=
  "IP_BLOCKED_FOR_" ++ toString duration ++ "s"

/-- Return value of `SDNController.block_ip`. -/
def sdnPushedMsg (duration : Nat) : String :=
  "SDN_BLOCK_PUSHED_FOR_" ++ toString duration ++ "s"

/-- Model of `WindowsFirewall.block_ip(ip_address, duration)`.
Guard: if the address is in `BLOCKED_IP_CACHE`, return the
already-blocked message at once. Otherwise, inside `try`: run the
`netsh ... add rule` command; on an exception, the `except` branch prints
an ERROR line and returns `"BLOCK_FAILED"`; on a returned exit status
(checked by nobody, whatever its value), add the address to the cache,
`save_blocked_cache()`, start a `threading.Timer(duration, unblock_ip)`
and return the blocked message. -/
def windowsBlockIp (sys : SysOutcome) (w : WriteOutcome) (ip : String)
    (duration : Nat) (s : CmState) : PyOutcome String × CmState :=
  if Json.str ip ∈ s.cache then
    (.ok (alreadyBlockedMsg duration), s)
  else
    let s1 := { s with actions := s.actions ++ [Action.netshAdd ip] }
    match sys with
    | .raise =>
        (.ok "BLOCK_FAILED",
         { s1 with errLog := s1.errLog ++ ["Could not block IP"] })
    | .exit _ =>
        let s2 := { s1 with cache := setAdd s1.cache (.str ip) }
        let s3 := save_blocked_cache w s2
        (.ok (blockedMsg duration),
         { s3 with timers := s3.timers ++ [(duration, ip)] })

/-- Model of `WindowsFirewall.unblock_ip(ip_address)`.
Guard: if the address is not in `BLOCKED_IP_CACHE`, return at once.
Otherwise, inside `try`: run the `netsh ... delete rule` command; on an
exception the `except` branch prints an ERROR line; otherwise remove the
address from the cache and `save_blocked_cache()`. -/
def windowsUnblockIp (sys : SysOutcome) (w : WriteOutcome) (ip : String)
    (s : CmState) : PyOutcome Unit × CmState :=
  if Json.str ip ∈ s.cache then
    let s1 := { s with actions := s.actions ++ [Action.netshDel ip] }
    match sys with
    | .raise =>
        (.ok (), { s1 with errLog := s1.errLog ++ ["Could not unblock IP"] })
    | .exit _ =>
        match setRemove s1.cache (.str ip) with
        | .ok c => (.ok (), save_blocked_cache w { s1 with cache := c })
        | .error _ =>
            -- a KeyError would also be caught by the enclosing except
            (.ok (), { s1 with errLog := s1.errLog ++ ["Could not unblock IP"] })
  else
    (.ok (), s)

/-- Model of `LinuxIPTables.block_ip(ip_address, duration)`.
Guard on the cache as in the Windows variant, but no `try`/`except`: an
exception from `os.system` escapes to the caller. On success: add the
address, `save_blocked_cache()`, return the blocked message. No timer is
started. -/
def linuxBlockIp (sys : SysOutcome) (w : WriteOutcome) (ip : String)
    (duration : Nat) (s : CmState) : PyOutcome String × CmState :=
  if Json.str ip ∈ s.cache then
    (.ok (alreadyBlockedMsg duration), s)
  else
    let s1 := { s with actions := s.actions ++ [Action.iptablesAdd ip] }
    match sys with
    | .raise => (.exn "OSError", s1)
    | .exit _ =>
        let s2 := { s1 with cache := setAdd s1.cache (.str ip) }
        (.ok (blockedMsg duration),
         save_blocked_cache w s2)

/-- Model of `LinuxIPTables.unblock_ip(ip_address)`: no guard and no
`try`/`except`. Run the `iptables -D` command (an exception escapes),
then `BLOCKED_IP_CACHE.remove(ip_address)` — a `KeyError` escapes when
the address is absent — then `save_blocked_cache()`. -/
def linuxUnblockIp (sys : SysOutcome) (w : WriteOutcome) (ip : String)
    (s : CmState) : PyOutcome Unit × CmState :=
  let s1 := { s with actions := s.actions ++ [Action.iptablesDel ip] }
  match sys with
  | .raise => (.exn "OSError", s1)
  | .exit _ =>
      match setRemove s1.cache (.str ip) with
      | .ok c => (.ok (), save_blocked_cache w { s1 with cache := c })
      | .error e => (.exn e, s1)

/-- Model of `SDNController.block_ip(ip_address, duration)`: no cache
guard at all. The `requests.post` to the controller sits in its own
`try`/`except Exception: pass`, so its outcome is ignored. Then add the
address to the cache (a set, so re-adding is silent), save, start a
`threading.Timer(duration, unblock_ip)` and return the pushed message. -/
def sdnBlockIp (post : PostOutcome) (w : WriteOutcome) (ip : String)
    (duration : Nat) (s : CmState) : PyOutcome String × CmState :=
  let s1 := { s with actions := s.actions ++ [Action.sdnFlowAdd ip] }
  let s2 :=
    match post with
    | .ok => s1
    | .raise => s1 -- exception swallowed by except: pass
  let s3 := { s2 with cache := setAdd s2.cache (.str ip) }
  let s4 := save_blocked_cache w s3
  (.ok (sdnPushedMsg duration),
   { s4 with timers := s4.timers ++ [(duration, ip)] })

/-- Model of `SDNController.unblock_ip(ip_address)`: a print, then
`BLOCKED_IP_CACHE.remove(ip_address)` with no guard and no `try` — a
`KeyError` escapes when the address is absent — then
`save_blocked_cache()`. No platform action is issued. -/
def sdnUnblockIp (w : WriteOutcome) (ip : String)
    (s : CmState) : PyOutcome Unit × CmState :=
  match setRemove s.cache (.str ip) with
  | .ok c => (.ok (), save_blocked_cache w { s with cache := c })
  | .error e => (.exn e, s)

/-- Predicate on call results: the call returned normally (no exception
escaped to the caller). -/
def PyOutcome.isOk {α : Type} : PyOutcome α → Bool
  | .ok _ => true
  | .exn _ => false

/-- Elements of the JSON array held by the durable file (empty for a
missing, unreadable or non-array file). -/
def fileElems (f : FileState) : List Json :=
  match f with
  | .json (.arr xs) => xs
  | _ => []

/-- Discriminator for JSON arrays (Python `isinstance(data, list)`). -/
def Json.isArr : Json → Bool
  | .arr _ => true
  | _ => false

/-- Registry built by inserting the given addresses in the given order
into an empty cache. -/
def buildCache (l : List String) : List Json :=
  setUpdate [] (l.map Json.str)

/-- State holding the given cache, with an empty durable file and no
recorded actions, timers or error lines. -/
def stateOf (c : List Json) : CmState :=
  { cache := c, file := .missing, actions := [], timers := [], errLog := [] }

/-- Persist the given cache and read it back, simulating a process
restart: the durable file written by a successful `save_blocked_cache` is
fed to the startup load. -/
def reload (c : List Json) : List Json :=
  loadCache ((save_blocked_cache .ok (stateOf c)).file)

/-- Sample state with exactly one blocked address, its durable mirror in
sync. -/
def oneBlocked : CmState :=
  { cache := [Json.str "203.0.113.9"],
    file := .json (.arr [Json.str "203.0.113.9"]),
    actions := [], timers := [], errLog := [] }

theorem setAdd_eq_of_mem {c : List Json} {x : Json} (h : x ∈ c) :
    setAdd c x = c := by
  simp [setAdd, h]

theorem mem_setAdd_iff (c : List Json) (x y : Json) :
    y ∈ setAdd c x ↔ y ∈ c ∨ y = x := by
  unfold setAdd
  split
  · rename_i h
    constructor
    · exact fun hy => Or.inl hy
    · rintro (hy | rfl)
      · exact hy
      · exact h
  · simp [List.mem_append]

theorem mem_setAdd_self (c : List Json) (x : Json) : x ∈ setAdd c x :=
  (mem_setAdd_iff c x x).mpr (Or.inr rfl)

theorem mem_setErase_iff (c : List Json) (x y : Json) :
    y ∈ setErase c x ↔ y ∈ c ∧ y ≠ x := by
  simp [setErase]

theorem not_mem_setErase (c : List Json) (x : Json) : x ∉ setErase c x := by
  simp [setErase]

theorem mem_setUpdate_iff (xs c : List Json) (y : Json) :
    y ∈ setUpdate c xs ↔ y ∈ c ∨ y ∈ xs := by
  induction xs generalizing c with
  | nil => simp [setUpdate]
  | cons x xs ih =>
      unfold setUpdate at ih ⊢
      rw [List.foldl_cons, ih (setAdd c x), mem_setAdd_iff]
      simp [List.mem_cons]
      tauto

theorem windowsBlockIp_already (sys : SysOutcome) (w : WriteOutcome)
    (ip : String) (d : Nat) (s : CmState) (h : Json.str ip ∈ s.cache) :
    windowsBlockIp sys w ip d s = (.ok (alreadyBlockedMsg d), s) := by
  simp [windowsBlockIp, h, alreadyBlockedMsg]

theorem linuxBlockIp_already (sys : SysOutcome) (w : WriteOutcome)
    (ip : String) (d : Nat) (s : CmState) (h : Json.str ip ∈ s.cache) :
    linuxBlockIp sys w ip d s = (.ok (alreadyBlockedMsg d), s) := by
  simp [linuxBlockIp, h, alreadyBlockedMsg]

theorem windowsBlockIp_fresh (c : Int) (ip : String) (d : Nat) (s : CmState)
    (h : Json.str ip ∉ s.cache) :
    windowsBlockIp (.exit c) .ok ip d s =
      (.ok (blockedMsg d),
       { cache := setAdd s.cache (.str ip),
         file := .json (.arr (setAdd s.cache (.str ip))),
         actions := s.actions ++ [Action.netshAdd ip],
         timers := s.timers ++ [(d, ip)],
         errLog := s.errLog }) := by
  simp [windowsBlockIp, h, save_blocked_cache, blockedMsg]

theorem windowsBlockIp_raise (w : WriteOutcome) (ip : String) (d : Nat)
    (s : CmState) (h : Json.str ip ∉ s.cache) :
    windowsBlockIp .raise w ip d s =
      (.ok "BLOCK_FAILED",
       { s with actions := s.actions ++ [Action.netshAdd ip],
                errLog := s.errLog ++ ["Could not block IP"] }) := by
  simp [windowsBlockIp, h]

theorem linuxBlockIp_fresh (c : Int) (ip : String) (d : Nat) (s : CmState)
    (h : Json.str ip ∉ s.cache) :
    linuxBlockIp (.exit c) .ok ip d s =
      (.ok (blockedMsg d),
       { cache := setAdd s.cache (.str ip),
         file := .json (.arr (setAdd s.cache (.str ip))),
         actions := s.actions ++ [Action.iptablesAdd ip],
         timers := s.timers,
         errLog := s.errLog }) := by
  simp [linuxBlockIp, h, save_blocked_cache, blockedMsg]

theorem sdnBlockIp_eq (post : PostOutcome) (ip : String) (d : Nat)
    (s : CmState) :
    sdnBlockIp post .ok ip d s =
      (.ok (sdnPushedMsg d),
       { cache := setAdd s.cache (.str ip),
         file := .json (.arr (setAdd s.cache (.str ip))),
         actions := s.actions ++ [Action.sdnFlowAdd ip],
         timers := s.timers ++ [(d, ip)],
         errLog := s.errLog }) := by
  cases post <;> simp [sdnBlockIp, save_blocked_cache, sdnPushedMsg]

theorem windowsUnblockIp_absent (sys : SysOutcome) (w : WriteOutcome)
    (ip : String) (s : CmState) (h : Json.str ip ∉ s.cache) :
    windowsUnblockIp sys w ip s = (.ok (), s) := by
  simp [windowsUnblockIp, h]

theorem windowsUnblockIp_raise (w : WriteOutcome) (ip : String)
    (s : CmState) (h : Json.str ip ∈ s.cache) :
    windowsUnblockIp .raise w ip s =
      (.ok (), { s with actions := s.actions ++ [Action.netshDel ip],
                        errLog := s.errLog ++ ["Could not unblock IP"] }) := by
  simp [windowsUnblockIp, h]

theorem windowsUnblockIp_success (c : Int) (ip : String) (s : CmState)
    (h : Json.str ip ∈ s.cache) :
    windowsUnblockIp (.exit c) .ok ip s =
      (.ok (), { cache := setErase s.cache (.str ip),
                 file := .json (.arr (setErase s.cache (.str ip))),
                 actions := s.actions ++ [Action.netshDel ip],
                 timers := s.timers,
                 errLog := s.errLog }) := by
  simp [windowsUnblockIp, h, setRemove, save_blocked_cache]

theorem linuxUnblockIp_absent (c : Int) (w : WriteOutcome) (ip : String)
    (s : CmState) (h : Json.str ip ∉ s.cache) :
    linuxUnblockIp (.exit c) w ip s =
      (.exn "KeyError",
       { s with actions := s.actions ++ [Action.iptablesDel ip] }) := by
  simp [linuxUnblockIp, setRemove, h]

theorem linuxUnblockIp_success (c : Int) (ip : String) (s : CmState)
    (h : Json.str ip ∈ s.cache) :
    linuxUnblockIp (.exit c) .ok ip s =
      (.ok (), { cache := setErase s.cache (.str ip),
                 file := .json (.arr (setErase s.cache (.str ip))),
                 actions := s.actions ++ [Action.iptablesDel ip],
                 timers := s.timers,
                 errLog := s.errLog }) := by
  simp [linuxUnblockIp, setRemove, h, save_blocked_cache]

theorem sdnUnblockIp_absent (w : WriteOutcome) (ip : String) (s : CmState)
    (h : Json.str ip ∉ s.cache) :
    sdnUnblockIp w ip s = (.exn "KeyError", s) := by
  simp [sdnUnblockIp, setRemove, h]

theorem sdnUnblockIp_success (ip : String) (s : CmState)
    (h : Json.str ip ∈ s.cache) :
    sdnUnblockIp .ok ip s =
      (.ok (), { cache := setErase s.cache (.str ip),
                 file := .json (.arr (setErase s.cache (.str ip))),
                 actions := s.actions,
                 timers := s.timers,
                 errLog := s.errLog }) := by
  simp [sdnUnblockIp, setRemove, h, save_blocked_cache]

theorem windowsBlockIp_isOk (sys : SysOutcome) (w : WriteOutcome)
    (ip : String) (d : Nat) (s : CmState) :
    ((windowsBlockIp sys w ip d s).1).isOk = true := by
  by_cases h : Json.str ip ∈ s.cache
  · simp [windowsBlockIp, h, PyOutcome.isOk]
  · cases sys <;> cases w <;>
      simp [windowsBlockIp, h, save_blocked_cache, PyOutcome.isOk]

theorem windowsUnblockIp_isOk (sys : SysOutcome) (w : WriteOutcome)
    (ip : String) (s : CmState) :
    ((windowsUnblockIp sys w ip s).1).isOk = true := by
  by_cases h : Json.str ip ∈ s.cache
  · cases sys <;> cases w <;>
      simp [windowsUnblockIp, h, setRemove, save_blocked_cache, PyOutcome.isOk]
  · simp [windowsUnblockIp, h, PyOutcome.isOk]

theorem sdnBlockIp_isOk (post : PostOutcome) (w : WriteOutcome)
    (ip : String) (d : Nat) (s : CmState) :
    ((sdnBlockIp post w ip d s).1).isOk = true := by
  cases post <;> cases w <;>
    simp [sdnBlockIp, save_blocked_cache, PyOutcome.isOk]

theorem windowsBlockIp_mem (c : Int) (w : WriteOutcome) (ip : String)
    (d : Nat) (s : CmState) :
    Json.str ip ∈ (windowsBlockIp (.exit c) w ip d s).2.cache := by
  by_cases h : Json.str ip ∈ s.cache
  · simp [windowsBlockIp, h]
  · cases w <;>
      simp [windowsBlockIp, h, save_blocked_cache, mem_setAdd_self]

theorem linuxBlockIp_mem (c : Int) (w : WriteOutcome) (ip : String)
    (d : Nat) (s : CmState) :
    Json.str ip ∈ (linuxBlockIp (.exit c) w ip d s).2.cache := by
  by_cases h : Json.str ip ∈ s.cache
  · simp [linuxBlockIp, h]
  · cases w <;>
      simp [linuxBlockIp, h, save_blocked_cache, mem_setAdd_self]

theorem sdnBlockIp_mem (post : PostOutcome) (w : WriteOutcome) (ip : String)
    (d : Nat) (s : CmState) :
    Json.str ip ∈ (sdnBlockIp post w ip d s).2.cache := by
  cases post <;> cases w <;>
    simp [sdnBlockIp, save_blocked_cache, mem_setAdd_self]

theorem windowsUnblockIp_not_mem (c : Int) (w : WriteOutcome) (ip : String)
    (s : CmState) :
    Json.str ip ∉ (windowsUnblockIp (.exit c) w ip s).2.cache := by
  by_cases h : Json.str ip ∈ s.cache
  · cases w <;>
      simp [windowsUnblockIp, h, setRemove, save_blocked_cache, setErase]
  · simp [windowsUnblockIp, h]

theorem linuxUnblockIp_not_mem (c : Int) (w : WriteOutcome) (ip : String)
    (s : CmState) :
    Json.str ip ∉ (linuxUnblockIp (.exit c) w ip s).2.cache := by
  by_cases h : Json.str ip ∈ s.cache
  · cases w <;>
      simp [linuxUnblockIp, h, setRemove, save_blocked_cache, setErase]
  · simp [linuxUnblockIp, h, setRemove]

theorem sdnUnblockIp_not_mem (w : WriteOutcome) (ip : String) (s : CmState) :
    Json.str ip ∉ (sdnUnblockIp w ip s).2.cache := by
  by_cases h : Json.str ip ∈ s.cache
  · cases w <;>
      simp [sdnUnblockIp, h, setRemove, save_blocked_cache, setErase]
  · simp [sdnUnblockIp, h, setRemove]

theorem mem_reload_iff (c : List Json) (y : Json) :
    y ∈ reload c ↔ y ∈ c := by
  show y ∈ loadCache (.json (.arr c)) ↔ y ∈ c
  rw [loadCache, mem_setUpdate_iff]
  simp

theorem mem_buildCache_iff (l : List String) (y : Json) :
    y ∈ buildCache l ↔ y ∈ l.map Json.str := by
  rw [buildCache, mem_setUpdate_iff]
  simp

/-- C1 (amended): for the Windows and Linux backends, `block_ip` on an
address already in the registry returns the already-blocked status
carrying the requested duration and leaves everything untouched: no
platform action, no registry mutation, no persist, no timer, the existing
expiry untouched. The SDN backend does not consult the registry: on an
already-blocked address it re-issues the flow push, re-persists the
unchanged registry, schedules an additional expiry timer, and returns its
pushed status. -/
theorem c1_block_already_blocked (sys : SysOutcome) (post : PostOutcome)
    (w : WriteOutcome) (ip : String) (d : Nat) (s : CmState)
    (h : Json.str ip ∈ s.cache) :
    windowsBlockIp sys w ip d s = (.ok (alreadyBlockedMsg d), s) ∧
    linuxBlockIp sys w ip d s = (.ok (alreadyBlockedMsg d), s) ∧
    sdnBlockIp post .ok ip d s =
      (.ok (sdnPushedMsg d),
       { cache := s.cache,
         file := .json (.arr s.cache),
         actions := s.actions ++ [Action.sdnFlowAdd ip],
         timers := s.timers ++ [(d, ip)],
         errLog := s.errLog }) := by
  refine ⟨windowsBlockIp_already sys w ip d s h,
          linuxBlockIp_already sys w ip d s h, ?_⟩
  rw [sdnBlockIp_eq, setAdd_eq_of_mem h]

/-- Witness for C1 at a concrete already-blocked state. -/
theorem c1_block_already_blocked_witness :
    windowsBlockIp SysOutcome.raise WriteOutcome.ok "203.0.113.9" 7 oneBlocked
      = (.ok (alreadyBlockedMsg 7), oneBlocked) ∧
    linuxBlockIp SysOutcome.raise WriteOutcome.ok "203.0.113.9" 7 oneBlocked
      = (.ok (alreadyBlockedMsg 7), oneBlocked) ∧
    sdnBlockIp PostOutcome.ok WriteOutcome.ok "203.0.113.9" 7 oneBlocked
      = (.ok (sdnPushedMsg 7),
         { cache := oneBlocked.cache,
           file := .json (.arr oneBlocked.cache),
           actions := oneBlocked.actions ++ [Action.sdnFlowAdd "203.0.113.9"],
           timers := oneBlocked.timers ++ [(7, "203.0.113.9")],
           errLog := oneBlocked.errLog }) :=
  c1_block_already_blocked SysOutcome.raise PostOutcome.ok WriteOutcome.ok
    "203.0.113.9" 7 oneBlocked (by decide)

/-- C1 counterexample: the SDN backend, called on the already-blocked
address of `oneBlocked`, issues a platform action, schedules a second
expiry timer, and does not return the already-blocked status — refuting
the claim for the SDN variant. -/
theorem c1_counterexample :
    Json.str "203.0.113.9" ∈ oneBlocked.cache ∧
    (sdnBlockIp PostOutcome.ok WriteOutcome.ok "203.0.113.9" 5 oneBlocked).1
      = .ok (sdnPushedMsg 5) ∧
    sdnPushedMsg 5 ≠ alreadyBlockedMsg 5 ∧
    (sdnBlockIp PostOutcome.ok WriteOutcome.ok "203.0.113.9" 5 oneBlocked).2.actions
      = [Action.sdnFlowAdd "203.0.113.9"] ∧
    (sdnBlockIp PostOutcome.ok WriteOutcome.ok "203.0.113.9" 5 oneBlocked).2.timers
      = [(5, "203.0.113.9")] := by
  decide

/-- C2 (amended): for an address not yet in the registry, a successful
`block_ip` (install action returns, durable write succeeds) adds the
address to the in-memory registry, persists the registry — the durable
mirror then contains the address — and returns the blocked status; the
Windows and SDN backends additionally schedule a one-shot deferred
`unblock_ip(address)` after `duration` seconds, while the Linux backend
schedules no timer at all. -/
theorem c2_block_success (c : Int) (post : PostOutcome) (ip : String)
    (d : Nat) (s : CmState) (h : Json.str ip ∉ s.cache) :
    (windowsBlockIp (.exit c) .ok ip d s).1 = .ok (blockedMsg d) ∧
    Json.str ip ∈ (windowsBlockIp (.exit c) .ok ip d s).2.cache ∧
    Json.str ip ∈ fileElems (windowsBlockIp (.exit c) .ok ip d s).2.file ∧
    (windowsBlockIp (.exit c) .ok ip d s).2.timers = s.timers ++ [(d, ip)] ∧
    (linuxBlockIp (.exit c) .ok ip d s).1 = .ok (blockedMsg d) ∧
    Json.str ip ∈ (linuxBlockIp (.exit c) .ok ip d s).2.cache ∧
    Json.str ip ∈ fileElems (linuxBlockIp (.exit c) .ok ip d s).2.file ∧
    (linuxBlockIp (.exit c) .ok ip d s).2.timers = s.timers ∧
    (sdnBlockIp post .ok ip d s).1 = .ok (sdnPushedMsg d) ∧
    Json.str ip ∈ (sdnBlockIp post .ok ip d s).2.cache ∧
    Json.str ip ∈ fileElems (sdnBlockIp post .ok ip d s).2.file ∧
    (sdnBlockIp post .ok ip d s).2.timers = s.timers ++ [(d, ip)] := by
  rw [windowsBlockIp_fresh c ip d s h, linuxBlockIp_fresh c ip d s h,
      sdnBlockIp_eq post ip d s]
  simp [fileElems, mem_setAdd_self]

/-- Witness for C2 at a concrete fresh address. -/
theorem c2_block_success_witness :
    Json.str "10.0.0.5" ∈
      (windowsBlockIp (SysOutcome.exit 0) WriteOutcome.ok "10.0.0.5" 60
        (initialState FileState.missing)).2.cache ∧
    Json.str "10.0.0.5" ∈
      fileElems (windowsBlockIp (SysOutcome.exit 0) WriteOutcome.ok "10.0.0.5" 60
        (initialState FileState.missing)).2.file :=
  ⟨(c2_block_success 0 PostOutcome.ok "10.0.0.5" 60
      (initialState FileState.missing) (by decide)).2.1,
   (c2_block_success 0 PostOutcome.ok "10.0.0.5" 60
      (initialState FileState.missing) (by decide)).2.2.1⟩

/-- C2 counterexample: for the Linux backend, a successful block of a
fresh address returns the blocked status and updates the registry, but
schedules no deferred unblock — refuting the scheduled-timer clause of
the claim. -/
theorem c2_counterexample :
    (linuxBlockIp (SysOutcome.exit 0) WriteOutcome.ok "10.0.0.5" 60
        (initialState FileState.missing)).1 = .ok (blockedMsg 60) ∧
    (linuxBlockIp (SysOutcome.exit 0) WriteOutcome.ok "10.0.0.5" 60
        (initialState FileState.missing)).2.cache = [Json.str "10.0.0.5"] ∧
    (linuxBlockIp (SysOutcome.exit 0) WriteOutcome.ok "10.0.0.5" 60
        (initialState FileState.missing)).2.timers = [] := by
  decide

/-- C3 (amended): `unblock_ip` on an address not in the registry is a
genuine no-op only for the Windows backend: state untouched, no platform
action, no error, and a second call yields the same end state. The Linux
and SDN backends perform no presence check: on an absent address the
Linux backend issues the platform removal command and then raises
`KeyError`, and the SDN backend raises `KeyError` without issuing any
action; the registry stays unchanged in both, but an exception escapes. -/
theorem c3_unblock_absent (sys : SysOutcome) (w : WriteOutcome) (c : Int)
    (ip : String) (s : CmState) (h : Json.str ip ∉ s.cache) :
    windowsUnblockIp sys w ip s = (.ok (), s) ∧
    windowsUnblockIp sys w ip (windowsUnblockIp sys w ip s).2 = (.ok (), s) ∧
    linuxUnblockIp (.exit c) w ip s =
      (.exn "KeyError",
       { s with actions := s.actions ++ [Action.iptablesDel ip] }) ∧
    sdnUnblockIp w ip s = (.exn "KeyError", s) := by
  have h1 := windowsUnblockIp_absent sys w ip s h
  refine ⟨h1, ?_, linuxUnblockIp_absent c w ip s h, sdnUnblockIp_absent w ip s h⟩
  rw [h1]
  exact h1

/-- Witness for C3 at a concrete absent address. -/
theorem c3_unblock_absent_witness :
    windowsUnblockIp SysOutcome.raise WriteOutcome.ok "198.51.100.2"
        (initialState FileState.missing)
      = (.ok (), initialState FileState.missing) ∧
    windowsUnblockIp SysOutcome.raise WriteOutcome.ok "198.51.100.2"
        (windowsUnblockIp SysOutcome.raise WriteOutcome.ok "198.51.100.2"
          (initialState FileState.missing)).2
      = (.ok (), initialState FileState.missing) ∧
    linuxUnblockIp (SysOutcome.exit 0) WriteOutcome.ok "198.51.100.2"
        (initialState FileState.missing)
      = (.exn "KeyError",
         { initialState FileState.missing with
             actions := (initialState FileState.missing).actions
               ++ [Action.iptablesDel "198.51.100.2"] }) ∧
    sdnUnblockIp WriteOutcome.ok "198.51.100.2" (initialState FileState.missing)
      = (.exn "KeyError", initialState FileState.missing) :=
  c3_unblock_absent SysOutcome.raise WriteOutcome.ok 0 "198.51.100.2"
    (initialState FileState.missing) (by decide)

/-- C3 counterexample: the Linux backend's unblock on an absent address
issues the platform removal command and raises `KeyError` — refuting both
the no-platform-action and the no-error clauses of the claim. -/
theorem c3_counterexample :
    (linuxUnblockIp (SysOutcome.exit 0) WriteOutcome.ok "198.51.100.2"
        (initialState FileState.missing)).1 = .exn "KeyError" ∧
    (linuxUnblockIp (SysOutcome.exit 0) WriteOutcome.ok "198.51.100.2"
        (initialState FileState.missing)).2.actions
      = [Action.iptablesDel "198.51.100.2"] := by
  decide

/-- C4 (amended): for the Windows backend on a fresh address, when the
install command raises, `block_ip` returns the string "BLOCK_FAILED"
(reported to the caller, no exception escapes), logs an error, and leaves
cache, durable file and timers untouched; but when the install command
merely returns an exit status — zero or not — the failure is not
detected: the registry is mutated and persisted, a timer is scheduled,
and the blocked status is returned. -/
theorem c4_block_install_failure (w : WriteOutcome) (c : Int) (ip : String)
    (d : Nat) (s : CmState) (h : Json.str ip ∉ s.cache) :
    windowsBlockIp .raise w ip d s =
      (.ok "BLOCK_FAILED",
       { s with actions := s.actions ++ [Action.netshAdd ip],
                errLog := s.errLog ++ ["Could not block IP"] }) ∧
    ((windowsBlockIp .raise w ip d s).1).isOk = true ∧
    windowsBlockIp (.exit c) .ok ip d s =
      (.ok (blockedMsg d),
       { cache := setAdd s.cache (.str ip),
         file := .json (.arr (setAdd s.cache (.str ip))),
         actions := s.actions ++ [Action.netshAdd ip],
         timers := s.timers ++ [(d, ip)],
         errLog := s.errLog }) := by
  refine ⟨windowsBlockIp_raise w ip d s h, ?_, windowsBlockIp_fresh c ip d s h⟩
  rw [windowsBlockIp_raise w ip d s h]
  rfl

/-- Witness for C4 at a concrete fresh address. -/
theorem c4_block_install_failure_witness :
    windowsBlockIp SysOutcome.raise WriteOutcome.ok "192.0.2.7" 30
        (initialState FileState.missing)
      = (.ok "BLOCK_FAILED",
         { initialState FileState.missing with
             actions := (initialState FileState.missing).actions
               ++ [Action.netshAdd "192.0.2.7"],
             errLog := (initialState FileState.missing).errLog
               ++ ["Could not block IP"] }) ∧
    ((windowsBlockIp SysOutcome.raise WriteOutcome.ok "192.0.2.7" 30
        (initialState FileState.missing)).1).isOk = true ∧
    windowsBlockIp (SysOutcome.exit 1) WriteOutcome.ok "192.0.2.7" 30
        (initialState FileState.missing)
      = (.ok (blockedMsg 30),
         { cache := setAdd (initialState FileState.missing).cache (.str "192.0.2.7"),
           file := .json (.arr (setAdd (initialState FileState.missing).cache
             (.str "192.0.2.7"))),
           actions := (initialState FileState.missing).actions
             ++ [Action.netshAdd "192.0.2.7"],
           timers := (initialState FileState.missing).timers ++ [(30, "192.0.2.7")],
           errLog := (initialState FileState.missing).errLog }) :=
  c4_block_install_failure WriteOutcome.ok 1 "192.0.2.7" 30
    (initialState FileState.missing) (by decide)

/-- C4 counterexample: the install command returning the non-zero exit
status 1 is not treated as a failure — `block_ip` returns the blocked
status, mutates the registry and schedules a timer, where the claim
demands the failed status and an untouched registry. -/
theorem c4_counterexample :
    (windowsBlockIp (SysOutcome.exit 1) WriteOutcome.ok "192.0.2.7" 30
        (initialState FileState.missing)).1 = .ok (blockedMsg 30) ∧
    (windowsBlockIp (SysOutcome.exit 1) WriteOutcome.ok "192.0.2.7" 30
        (initialState FileState.missing)).1 ≠ .ok "BLOCK_FAILED" ∧
    (windowsBlockIp (SysOutcome.exit 1) WriteOutcome.ok "192.0.2.7" 30
        (initialState FileState.missing)).2.cache = [Json.str "192.0.2.7"] ∧
    (windowsBlockIp (SysOutcome.exit 1) WriteOutcome.ok "192.0.2.7" 30
        (initialState FileState.missing)).2.timers = [(30, "192.0.2.7")] := by
  decide

/-- C5 (amended): the Windows backend's block and unblock and the SDN
backend's block never let an exception escape — the caller observes only
returned status values or silent success — but the Linux backend's block
and unblock and the SDN backend's unblock have no exception handling: a
platform-action exception, or the `KeyError` from removing an absent
address, escapes the subsystem to the caller. -/
theorem c5_no_exception_escape (sys : SysOutcome) (w : WriteOutcome)
    (post : PostOutcome) (ip : String) (d : Nat) (s : CmState) :
    ((windowsBlockIp sys w ip d s).1).isOk = true ∧
    ((windowsUnblockIp sys w ip s).1).isOk = true ∧
    ((sdnBlockIp post w ip d s).1).isOk = true :=
  ⟨windowsBlockIp_isOk sys w ip d s, windowsUnblockIp_isOk sys w ip s,
   sdnBlockIp_isOk post w ip d s⟩

/-- C5 counterexample: the SDN backend's unblock on an absent address
lets a `KeyError` escape to the caller — an exception crosses the
subsystem boundary, refuting the claim. -/
theorem c5_counterexample :
    ((sdnUnblockIp WriteOutcome.ok "198.51.100.77"
        (initialState FileState.missing)).1).isOk = false ∧
    (sdnUnblockIp WriteOutcome.ok "198.51.100.77"
        (initialState FileState.missing)).1 = .exn "KeyError" := by
  decide

/-- C6: a persist with a successful write is a full-set overwrite: the
durable file afterwards holds the JSON array of exactly the in-memory
cache, independent of what the file held before (two states with equal
caches persist to identical file content), and every mutating path of
the backends persists right after mutating, so the durable file then
contains exactly the in-memory set of that moment. -/
theorem c6_persist_full_overwrite (s t : CmState) (ip ip2 : String)
    (d : Nat) (c : Int) (post : PostOutcome) (h : s.cache = t.cache)
    (hfresh : Json.str ip ∉ s.cache) (hmem : Json.str ip2 ∈ s.cache) :
    (save_blocked_cache .ok s).file = .json (.arr s.cache) ∧
    fileElems (save_blocked_cache .ok s).file = s.cache ∧
    (save_blocked_cache .ok s).file = (save_blocked_cache .ok t).file ∧
    fileElems (windowsBlockIp (.exit c) .ok ip d s).2.file
      = (windowsBlockIp (.exit c) .ok ip d s).2.cache ∧
    fileElems (linuxBlockIp (.exit c) .ok ip d s).2.file
      = (linuxBlockIp (.exit c) .ok ip d s).2.cache ∧
    fileElems (sdnBlockIp post .ok ip d s).2.file
      = (sdnBlockIp post .ok ip d s).2.cache ∧
    fileElems (windowsUnblockIp (.exit c) .ok ip2 s).2.file
      = (windowsUnblockIp (.exit c) .ok ip2 s).2.cache ∧
    fileElems (linuxUnblockIp (.exit c) .ok ip2 s).2.file
      = (linuxUnblockIp (.exit c) .ok ip2 s).2.cache ∧
    fileElems (sdnUnblockIp .ok ip2 s).2.file
      = (sdnUnblockIp .ok ip2 s).2.cache := by
  rw [windowsBlockIp_fresh c ip d s hfresh, linuxBlockIp_fresh c ip d s hfresh,
      sdnBlockIp_eq post ip d s, windowsUnblockIp_success c ip2 s hmem,
      linuxUnblockIp_success c ip2 s hmem, sdnUnblockIp_success ip2 s hmem]
  exact ⟨rfl, rfl, by simp [save_blocked_cache, h], rfl, rfl, rfl, rfl, rfl, rfl⟩

/-- Witness for C6 at concrete states whose caches agree but whose files
differ, a fresh address and a blocked address. -/
theorem c6_persist_full_overwrite_witness :
    (save_blocked_cache .ok oneBlocked).file = .json (.arr oneBlocked.cache) ∧
    fileElems (save_blocked_cache .ok oneBlocked).file = oneBlocked.cache ∧
    (save_blocked_cache .ok oneBlocked).file
      = (save_blocked_cache .ok { oneBlocked with
          file := FileState.json (Json.str "stale") }).file ∧
    fileElems (windowsBlockIp (.exit 0) .ok "10.1.1.1" 9 oneBlocked).2.file
      = (windowsBlockIp (.exit 0) .ok "10.1.1.1" 9 oneBlocked).2.cache ∧
    fileElems (linuxBlockIp (.exit 0) .ok "10.1.1.1" 9 oneBlocked).2.file
      = (linuxBlockIp (.exit 0) .ok "10.1.1.1" 9 oneBlocked).2.cache ∧
    fileElems (sdnBlockIp PostOutcome.ok .ok "10.1.1.1" 9 oneBlocked).2.file
      = (sdnBlockIp PostOutcome.ok .ok "10.1.1.1" 9 oneBlocked).2.cache ∧
    fileElems (windowsUnblockIp (.exit 0) .ok "203.0.113.9" oneBlocked).2.file
      = (windowsUnblockIp (.exit 0) .ok "203.0.113.9" oneBlocked).2.cache ∧
    fileElems (linuxUnblockIp (.exit 0) .ok "203.0.113.9" oneBlocked).2.file
      = (linuxUnblockIp (.exit 0) .ok "203.0.113.9" oneBlocked).2.cache ∧
    fileElems (sdnUnblockIp .ok "203.0.113.9" oneBlocked).2.file
      = (sdnUnblockIp .ok "203.0.113.9" oneBlocked).2.cache :=
  c6_persist_full_overwrite oneBlocked
    { oneBlocked with file := FileState.json (Json.str "stale") }
    "10.1.1.1" "203.0.113.9" 9 0 PostOutcome.ok rfl (by decide) (by decide)

/-- C7: persisting the registry built by inserting a list of addresses
and reloading the written file (simulating a restart) reproduces exactly
the same set of addresses, and two insertion orders of the same addresses
reload to the same set. -/
theorem c7_round_trip (l1 l2 : List String) (h : l1.Perm l2) :
    (reload (buildCache l1)).toFinset = (buildCache l1).toFinset ∧
    (reload (buildCache l1)).toFinset = (reload (buildCache l2)).toFinset := by
  have key : ∀ l : List String,
      (reload (buildCache l)).toFinset = (buildCache l).toFinset := by
    intro l
    ext y
    simp [List.mem_toFinset, mem_reload_iff]
  refine ⟨key l1, ?_⟩
  rw [key l1, key l2]
  ext y
  simp only [List.mem_toFinset, mem_buildCache_iff]
  exact (h.map Json.str).mem_iff

/-- Witness for C7 on three addresses inserted in two different orders. -/
theorem c7_round_trip_witness :
    (reload (buildCache ["10.0.0.1", "10.0.0.2", "10.0.0.3"])).toFinset
      = (buildCache ["10.0.0.1", "10.0.0.2", "10.0.0.3"]).toFinset ∧
    (reload (buildCache ["10.0.0.1", "10.0.0.2", "10.0.0.3"])).toFinset
      = (reload (buildCache ["10.0.0.3", "10.0.0.1", "10.0.0.2"])).toFinset :=
  c7_round_trip ["10.0.0.1", "10.0.0.2", "10.0.0.3"]
    ["10.0.0.3", "10.0.0.1", "10.0.0.2"] (by decide)

/-- C8: at startup a missing file, unreadable or malformed content, and
any well-formed JSON value that is not an array all load as the empty
registry, and the module still starts: its state is the pristine state
with an empty cache. -/
theorem c8_load_malformed (j : Json) (h : j.isArr = false) :
    loadCache .missing = [] ∧
    loadCache .unreadable = [] ∧
    loadCache (.json j) = [] ∧
    (initialState (.json j)).cache = [] := by
  refine ⟨rfl, rfl, ?_, ?_⟩ <;>
    cases j <;> simp_all [Json.isArr, loadCache, initialState]

/-- Witness for C8 at the well-formed non-array content of the spec's
example. -/
theorem c8_load_malformed_witness :
    loadCache .missing = [] ∧
    loadCache .unreadable = [] ∧
    loadCache (.json (Json.str "not a list")) = [] ∧
    (initialState (.json (Json.str "not a list"))).cache = [] :=
  c8_load_malformed (Json.str "not a list") (by decide)

/-- C9 (amended): for an address present in the registry, when the
Windows removal command raises, `unblock_ip` only logs the error and does
not retry, but the address is NOT removed: cache and durable file stay as
they were; when the removal command merely returns an exit status — zero
or not — the failure goes undetected, nothing is logged, and the address
is removed from the registry and the registry persisted (optimistic
removal), with no re-add and no retry. -/
theorem c9_unblock_removal_failure (w : WriteOutcome) (c : Int)
    (ip : String) (s : CmState) (h : Json.str ip ∈ s.cache) :
    windowsUnblockIp .raise w ip s =
      (.ok (), { s with actions := s.actions ++ [Action.netshDel ip],
                        errLog := s.errLog ++ ["Could not unblock IP"] }) ∧
    Json.str ip ∈ (windowsUnblockIp .raise w ip s).2.cache ∧
    (windowsUnblockIp .raise w ip s).2.file = s.file ∧
    windowsUnblockIp (.exit c) .ok ip s =
      (.ok (), { cache := setErase s.cache (.str ip),
                 file := .json (.arr (setErase s.cache (.str ip))),
                 actions := s.actions ++ [Action.netshDel ip],
                 timers := s.timers,
                 errLog := s.errLog }) ∧
    Json.str ip ∉ (windowsUnblockIp (.exit c) .ok ip s).2.cache ∧
    (windowsUnblockIp (.exit c) .ok ip s).2.errLog = s.errLog := by
  have h1 := windowsUnblockIp_raise w ip s h
  have h2 := windowsUnblockIp_success c ip s h
  rw [h1, h2]
  exact ⟨rfl, h, rfl, rfl, not_mem_setErase s.cache (.str ip), rfl⟩

/-- Witness for C9 at the concrete one-address state. -/
theorem c9_unblock_removal_failure_witness :
    windowsUnblockIp .raise WriteOutcome.ok "203.0.113.9" oneBlocked =
      (.ok (), { oneBlocked with
          actions := oneBlocked.actions ++ [Action.netshDel "203.0.113.9"],
          errLog := oneBlocked.errLog ++ ["Could not unblock IP"] }) ∧
    Json.str "203.0.113.9"
      ∈ (windowsUnblockIp .raise WriteOutcome.ok "203.0.113.9" oneBlocked).2.cache ∧
    (windowsUnblockIp .raise WriteOutcome.ok "203.0.113.9" oneBlocked).2.file
      = oneBlocked.file ∧
    windowsUnblockIp (.exit 1) .ok "203.0.113.9" oneBlocked =
      (.ok (), { cache := setErase oneBlocked.cache (.str "203.0.113.9"),
                 file := .json (.arr (setErase oneBlocked.cache (.str "203.0.113.9"))),
                 actions := oneBlocked.actions ++ [Action.netshDel "203.0.113.9"],
                 timers := oneBlocked.timers,
                 errLog := oneBlocked.errLog }) ∧
    Json.str "203.0.113.9"
      ∉ (windowsUnblockIp (.exit 1) .ok "203.0.113.9" oneBlocked).2.cache ∧
    (windowsUnblockIp (.exit 1) .ok "203.0.113.9" oneBlocked).2.errLog
      = oneBlocked.errLog :=
  c9_unblock_removal_failure WriteOutcome.ok 1 "203.0.113.9" oneBlocked (by decide)

/-- C9 counterexample: when the removal command raises, the address is
NOT removed from the registry and nothing new is persisted — cache and
durable mirror still hold the address — refuting the claim that the
address is removed and persisted on removal failure. -/
theorem c9_counterexample :
    Json.str "203.0.113.9"
      ∈ (windowsUnblockIp SysOutcome.raise WriteOutcome.ok "203.0.113.9"
          oneBlocked).2.cache ∧
    (windowsUnblockIp SysOutcome.raise WriteOutcome.ok "203.0.113.9"
        oneBlocked).2.file = oneBlocked.file ∧
    (windowsUnblockIp SysOutcome.raise WriteOutcome.ok "203.0.113.9"
        oneBlocked).2.errLog = ["Could not unblock IP"] := by
  decide

/-- C10: the three backends act on the single module-level registry
`BLOCKED_IP_CACHE`: after any backend's successful block the address is
in the shared cache; the registry-consulting backends (Windows and Linux)
then report it already blocked whichever backend installed it; and an
unblock through any backend removes the address from the cache seen by
all. -/
theorem c10_shared_registry (c c2 : Int) (w w2 : WriteOutcome)
    (sys2 : SysOutcome) (post : PostOutcome) (ip : String) (d d2 : Nat)
    (s : CmState) :
    Json.str ip ∈ (windowsBlockIp (.exit c) w ip d s).2.cache ∧
    Json.str ip ∈ (linuxBlockIp (.exit c) w ip d s).2.cache ∧
    Json.str ip ∈ (sdnBlockIp post w ip d s).2.cache ∧
    windowsBlockIp sys2 w2 ip d2 (linuxBlockIp (.exit c) w ip d s).2
      = (.ok (alreadyBlockedMsg d2), (linuxBlockIp (.exit c) w ip d s).2) ∧
    windowsBlockIp sys2 w2 ip d2 (sdnBlockIp post w ip d s).2
      = (.ok (alreadyBlockedMsg d2), (sdnBlockIp post w ip d s).2) ∧
    linuxBlockIp sys2 w2 ip d2 (windowsBlockIp (.exit c) w ip d s).2
      = (.ok (alreadyBlockedMsg d2), (windowsBlockIp (.exit c) w ip d s).2) ∧
    linuxBlockIp sys2 w2 ip d2 (sdnBlockIp post w ip d s).2
      = (.ok (alreadyBlockedMsg d2), (sdnBlockIp post w ip d s).2) ∧
    Json.str ip ∉
      (windowsUnblockIp (.exit c2) w2 ip (sdnBlockIp post w ip d s).2).2.cache ∧
    Json.str ip ∉
      (linuxUnblockIp (.exit c2) w2 ip (windowsBlockIp (.exit c) w ip d s).2).2.cache ∧
    Json.str ip ∉
      (sdnUnblockIp w2 ip (linuxBlockIp (.exit c) w ip d s).2).2.cache :=
  ⟨windowsBlockIp_mem c w ip d s, linuxBlockIp_mem c w ip d s,
   sdnBlockIp_mem post w ip d s,
   windowsBlockIp_already sys2 w2 ip d2 _ (linuxBlockIp_mem c w ip d s),
   windowsBlockIp_already sys2 w2 ip d2 _ (sdnBlockIp_mem post w ip d s),
   linuxBlockIp_already sys2 w2 ip d2 _ (windowsBlockIp_mem c w ip d s),
   linuxBlockIp_already sys2 w2 ip d2 _ (sdnBlockIp_mem post w ip d s),
   windowsUnblockIp_not_mem c2 w2 ip _,
   linuxUnblockIp_not_mem c2 w2 ip _,
   sdnUnblockIp_not_mem w2 ip _⟩

end Countermeasure
